import Mathlib

/-!
Verification of the `podo-std-eye` video-capture driver core.

This file shallowly embeds the parts of the Rust source that the checked
properties talk about:

* `src/frame.rs` — the `Image` / `Frame` data model and image (de)serialization;
* `src/cam/queue.rs` and `src/cam/capture.rs` — the fixed-capacity slot ring
  (`Queue` / `VideoCaptureQueue`) with its producer `push_inner` /
  `push_inner_inplace` and consumer `pop_inner` operations;
* `src/cam/capture.rs` and `src/cam/client.rs` — the `get` dispatch of the
  device reader (`VideoCapture`) and the remote reader (`ClientCapture`);
* `src/export.rs` — the export server's per-request dispatch and its
  listening socket;
* `src/config.rs` — the `OneConfig` configuration sum type and its factory.

Machine integers (`usize`) are embedded as `Nat` with explicit reduction
modulo `2 ^ 64` at the operations where Rust release-build wrapping can
occur.  Loops that spin on concurrently updated atomics are embedded as
functions of the snapshot values observed at the iteration where the loop
exits; `none` models "the loop does not exit at this observation".
-/

namespace Eye

/-- `usize::MAX + 1`: the modulus of Rust's 64-bit unsigned arithmetic. -/
def USIZE : Nat := 2 ^ 64

/-- Modelled from the spec: the error kinds of the single `RuntimeError`
type of the external `podo-core-driver` crate (spec §7), whose source is
not part of this repository.  The constructors mirror the constructor
functions used by the code under `src/`: `RuntimeError::expect`
(semantic kind *IO/Internal with message*), `RuntimeError::unexpected`,
`RuntimeError::unreachable` (spec §7: the *Internal* kind is "also used
for unreachable branches"), `RuntimeError::unimplemented`,
`RuntimeError::message`, the *NotRunning* error produced by
`AliveFlag::assert_running`, and the *AlreadyRunning* error produced by
`AliveFlag::start` on a running flag. -/
inductive RuntimeError where
  | notRunning
  | alreadyRunning
  | expected (msg : String)
  | unexpectedErr
  | unreachableErr
  | unimplementedErr
  | message (msg : String)
deriving DecidableEq, Repr

/-- `VideoColor` from `src/config.rs`. -/
inductive VideoColor where
  | Grayscale
  | Color
deriving DecidableEq, Repr

/-- `VideoMeta` from `src/config.rs`: codec FourCC, color mode and the
configured `width`/`height`/`fps` (`u32` fields embedded as `Nat`). -/
structure VideoMeta where
  codec : Option String
  color : Option VideoColor
  width : Nat
  height : Nat
  fps : Nat
deriving DecidableEq, Repr

/-- `Image` from `src/frame.rs`: a pixel matrix with `rows`, `cols`, a small
integer `typ` code and a contiguous byte buffer.  The matrix dimensions are
`i32` in OpenCV; valid images have non-negative dimensions, embedded as
`Nat`.  The byte buffer is the contiguous matrix data. -/
structure Image where
  rows : Nat
  cols : Nat
  typ : Nat
  data : List Nat
deriving DecidableEq, Repr

instance : Inhabited Image := ⟨⟨0, 0, 0, []⟩⟩

/-- OpenCV `CV_MAT_DEPTH(typ)`: the low three bits of the type code. -/
def cvDepth (typ : Nat) : Nat := typ % 8

/-- OpenCV `CV_MAT_CN(typ)`: the channel count encoded above the depth bits. -/
def cvChannels (typ : Nat) : Nat := typ / 8 + 1

/-- Byte size of one element of an OpenCV depth code
(`CV_8U/8S → 1`, `CV_16U/16S/16F → 2`, `CV_32S/32F → 4`, `CV_64F → 8`). -/
def depthSize (depth : Nat) : Nat :=
  match depth with
  | 0 => 1
  | 1 => 1
  | 2 => 2
  | 3 => 2
  | 4 => 4
  | 5 => 4
  | 6 => 8
  | _ => 2

/-- OpenCV `Mat::elem_size()`: bytes per pixel, channels times depth size. -/
def elemSize (typ : Nat) : Nat := cvChannels typ * depthSize (cvDepth typ)

/-- The 4-field record produced by `impl Serialize for Image`
(`src/frame.rs`): `rows`, `cols`, `typ`, `data`. -/
structure SerImage where
  rows : Nat
  cols : Nat
  typ : Nat
  data : List Nat
deriving DecidableEq, Repr

/-- `impl Serialize for Image` (`src/frame.rs`): serializes `rows`, `cols`,
`typ` and the slice of `rows * cols * elem_size` bytes read from the start
of the matrix buffer (`slice::from_raw_parts(self.inner.ptr(0), len)`). -/
def Image.serialize (I : Image) : SerImage :=
  ⟨I.rows, I.cols, I.typ, I.data.take (I.rows * I.cols * elemSize I.typ)⟩

/-- `Image::from_bytes` (`src/frame.rs`): builds an owning image whose
matrix has the given dimensions and type and whose buffer is exactly the
given byte vector. -/
def Image.from_bytes (rows cols typ : Nat) (data : List Nat) : Image :=
  ⟨rows, cols, typ, data⟩

/-- `impl Deserialize for Image` (`src/frame.rs`): reads the four fields
and calls `Image::from_bytes(rows, cols, typ, data)`. -/
def Image.deserialize (s : SerImage) : Image :=
  Image.from_bytes s.rows s.cols s.typ s.data

/-- `Frame` from `src/frame.rs`: image, meta, timestamp and the ring
sequence number `count` (`usize`).  Timestamps (`chrono::DateTime<Utc>`)
are opaque time values, embedded as `Int`. -/
structure Frame where
  image : Image
  meta : VideoMeta
  timestamp : Int
  count : Nat
deriving DecidableEq, Repr

/-- One ring slot: the `(Image, DateTime<Utc>)` pair behind the slot's
`RwLock` (`src/cam/queue.rs`; `src/cam/capture.rs` stores the raw `Mat`
instead of `Image`, with identical structure). -/
structure Slot where
  image : Image
  timestamp : Int
deriving DecidableEq, Repr

instance : Inhabited Slot := ⟨⟨default, 0⟩⟩

/-- The shared state of `Queue` (`src/cam/queue.rs`) and of the structurally
identical `VideoCaptureQueue` (`src/cam/capture.rs`): the `alive` flag, the
slot vector, the producer push counter `ptr` (spec: `head`), the consumer
counter `ptr_next_comsumed` (spec: `low_watermark`), and the fixed
capacity `size`. -/
structure QueueState where
  alive : Bool
  buffer : List Slot
  ptr : Nat
  ptrNextConsumed : Nat
  size : Nat
deriving DecidableEq, Repr

/-- The break condition of the producer spin loops
(`Queue::wait` in `src/cam/queue.rs`, the head of
`VideoCaptureQueue::push_inner` in `src/cam/capture.rs`):
`ptr < ptr_next_comsumed + (size - 1)`, evaluated between the snapshot of
`ptr` taken before the loop and the `ptr_next_comsumed` value observed at
the current iteration. -/
def waitGate (q : QueueState) : Bool :=
  decide (q.ptr < q.ptrNextConsumed + (q.size - 1))

/-- The shared slot-writing tail of `Queue::push_inner`,
`Queue::push_inner_inplace` (`src/cam/queue.rs`) and
`VideoCaptureQueue::push_inner` (`src/cam/capture.rs`): overwrite the slot
at `ptr % size` with the written image and the timestamp if it exists,
otherwise insert it (`Vec::insert`; in reachable states the slot vector is
filled sequentially, so insertion happens exactly at the end), then
advance `ptr` by one (`fetch_add(1)`, wrapping `usize` arithmetic).
The writer callback of `push_inner` is embedded as the image bytes it
produced; its error path (`f(image)?` returns the error without advancing
`ptr`) is not needed by any claim settled here. -/
def writeSlot (q : QueueState) (image : Image) (ts : Int) : QueueState :=
  let i := q.ptr % q.size
  { q with
    buffer :=
      if i < q.buffer.length then q.buffer.set i ⟨image, ts⟩
      else q.buffer.insertIdx i ⟨image, ts⟩
    ptr := (q.ptr + 1) % USIZE }

/-- `Queue::push_inner` (`src/cam/queue.rs`), at the observation where
`Queue::wait` exits: `wait(sync)` spins (yielding) while `sync` is true
and the gate fails, so with `sync = true` the write is performed only in a
state where the gate holds; with `sync = false` it proceeds immediately.
`none` models "still spinning at this observation". -/
def Queue.push_inner (q : QueueState) (image : Image) (ts : Int)
    (sync : Bool) : Option QueueState :=
  if sync && !waitGate q then none
  else some (writeSlot q image ts)

/-- `Queue::push_inner_inplace` (`src/cam/queue.rs`): identical to
`push_inner` except that the slot receives a moved-in image instead of
being filled by a callback — the same state transformation here. -/
def Queue.push_inner_inplace (q : QueueState) (image : Image) (ts : Int)
    (sync : Bool) : Option QueueState :=
  if sync && !waitGate q then none
  else some (writeSlot q image ts)

/-- `VideoCaptureQueue::push_inner` (`src/cam/capture.rs`): same write as
`Queue::push_inner`, but the spin loop runs when `!sync` — the gate
polarity is inverted relative to `src/cam/queue.rs` (spec §9
"Backpressure flag inversion"). -/
def VideoCaptureQueue.push_inner (q : QueueState) (image : Image)
    (ts : Int) (sync : Bool) : Option QueueState :=
  if !sync && !waitGate q then none
  else some (writeSlot q image ts)

/-- `Queue::pop_inner` (`src/cam/queue.rs`) and the textually identical
`VideoCaptureQueue::pop_inner` (`src/cam/capture.rs`), at the loop
iteration where the pick loop exits.  `countNow` is the value of `ptr`
observed at that iteration.  The loop first checks
`alive.assert_running()` (an error stops the pop with *NotRunning*), then
picks `ptr = count_now - (size - 1)` if the consumer lagged off the ring
(`count_now > count_frame + (size - 1)`), or `ptr = count_frame` if
`count_now > count_frame`, and otherwise yields and retries (`none`
here).  After the pick, `ptr_next_comsumed` is set to `ptr + 1`, the slot
at `ptr % size` is read under its lock (`buffer.get(..).unwrap()`; the
theorems below require the index to be in bounds, which is where the
source's `unwrap` is a panic), its image is copied into the frame, and the
frame's timestamp and count are set. -/
def Queue.pop_inner (q : QueueState) (frame : Frame) (countNow : Nat) :
    Option (Except RuntimeError (Frame × QueueState)) :=
  if q.alive = false then some (.error .notRunning)
  else if frame.count < countNow then
    let ptr :=
      if frame.count + (q.size - 1) < countNow then countNow - (q.size - 1)
      else frame.count
    let slot := q.buffer.getD (ptr % q.size) default
    some (.ok
      ({ frame with image := slot.image, timestamp := slot.timestamp,
                    count := ptr + 1 },
       { q with ptrNextConsumed := ptr + 1 }))
  else none

/-- `us_per_frame` as computed in `VideoCaptureThread::new_thread`
(`src/cam/capture.rs`): `0` when `fps == 0`, otherwise
`(1_000_000_f64 / fps as f64) as i64`.  For every `u32` value of `fps`
the `f64` quotient truncated toward zero equals the `Nat` floor division
`1000000 / fps`: the quotient of two exactly representable values is
correctly rounded, and its distance to the nearest integer is at least
`1 / fps`, which exceeds the half-ulp bound `(1000000 / fps) * 2 ^ (-53)`,
so rounding never crosses an integer boundary. -/
def usPerFrame (fps : Nat) : Nat :=
  match fps with
  | 0 => 0
  | _ => 1000000 / fps

/-- `let sync = self.us_per_frame > 0` in `VideoCaptureThread::inner_loop`
(`src/cam/capture.rs`): the flag the device producer passes to
`VideoCaptureQueue::push_inner`. -/
def deviceSync (fps : Nat) : Bool :=
  decide (0 < usPerFrame fps)

/-- Backpressure in the device producer: `VideoCaptureQueue::push_inner`
runs its spin gate exactly when its `sync` argument is false, so the
producer blocks on unconsumed slots exactly when `deviceSync` is false. -/
def deviceBackpressure (fps : Nat) : Bool :=
  !deviceSync fps

/-- `VideoCapture::get` (`src/cam/capture.rs`), the dispatch after the
frame slot has been filled in: with the reader running it delegates to
`VideoCaptureQueue::pop_inner` (outcome `popRes`); otherwise it calls
`self.stop()` (outcome `stopRes`, the joined producer result) and returns
`RuntimeError::unreachable()` if the stop succeeded, or the stop's error. -/
def VideoCapture.get (running : Bool)
    (stopRes popRes : Except RuntimeError Unit) :
    Except RuntimeError Unit :=
  match running with
  | true => popRes
  | false =>
    match stopRes with
    | .ok _ => .error .unreachableErr
    | .error e => .error e

/-- `ClientCapture::get` (`src/cam/client.rs`): same dispatch as
`VideoCapture::get`, except that the branch where `self.stop()` succeeds
is the `unreachable!()` macro — a panic, embedded as `none`. -/
def ClientCapture.get (running : Bool)
    (stopRes popRes : Except RuntimeError Unit) :
    Option (Except RuntimeError Unit) :=
  match running with
  | true => some popRes
  | false =>
    match stopRes with
    | .ok _ => none
    | .error e => some (.error e)

/-- `EyeRequestType` from `src/export.rs`. -/
inductive EyeRequestType where
  | Start
  | Stop
  | Get
deriving DecidableEq, Repr

/-- `EyeRequest` from `src/export.rs`. -/
structure EyeRequest where
  reader : String
  typ : EyeRequestType
deriving DecidableEq, Repr

deriving instance DecidableEq for Except

/-- `EyeResponse` from `src/export.rs`.  The `Frame` payload carries the
outcome of `reader.get` (`Ok(frame)` or the error's debug string); the
frame value itself is irrelevant to the claims settled here. -/
inductive EyeResponse where
  | Frame (result : Except String Unit)
  | NoSuchReader (name : String)
  | Awk
deriving DecidableEq, Repr

/-- The per-reader server state: the reference counter entry of
`EyeExportServer.count` (a `usize`, created at `0` for every registered
reader by `EyeExportServerHandler::start`) together with the reader's
`alive` flag.  `count` and `inner` are two `BTreeMap`s over exactly the
same keys (both are built from `nodes`), embedded jointly as one
association list. -/
structure ExportEntry where
  count : Nat
  running : Bool
deriving DecidableEq, Repr

/-- The export server's reader registry: `name → (refcount, running)`. -/
abbrev ExportMap := List (String × ExportEntry)

/-- `BTreeMap::get`: first entry with the given key. -/
def mapLookup (m : ExportMap) (k : String) : Option ExportEntry :=
  match m with
  | [] => none
  | (k', e) :: rest => if k' = k then some e else mapLookup rest k

/-- `BTreeMap::get_mut` followed by an update: rewrites the entry of the
given key, leaves every other entry unchanged. -/
def mapUpdate (m : ExportMap) (k : String) (f : ExportEntry → ExportEntry) :
    ExportMap :=
  match m with
  | [] => []
  | (k', e) :: rest =>
    if k' = k then (k', f e) :: rest else (k', e) :: mapUpdate rest k f

/-- The per-request dispatch closure of `EyeExportServer::run`
(`src/export.rs`).  Absent reader: respond `NoSuchReader` and leave the
state alone.  `Start`: increment the refcount (`usize` wrapping in
release builds) and call `reader.start()`, ignoring its error
(`AliveFlag::start` leaves a running flag running, so the flag is simply
true afterwards).  `Stop`: decrement the refcount — the source performs an
unchecked `-= 1`, so a zero count wraps to `2 ^ 64 - 1` under release
semantics (and panics under debug overflow checks); if the new count is
`0`, call `reader.stop()` (flag becomes false).  `Get`: call `reader.get`
on a fresh slot (outcome parameter `getRes`) and wrap it in a `Frame`
response; the registry state is untouched.  Producer-side self-
termination of readers is outside this per-request model. -/
def handleRequest (inner : ExportMap) (getRes : Except String Unit)
    (req : EyeRequest) : ExportMap × EyeResponse :=
  match mapLookup inner req.reader with
  | none => (inner, .NoSuchReader req.reader)
  | some _ =>
    match req.typ with
    | .Start =>
      (mapUpdate inner req.reader
        (fun e => ⟨(e.count + 1) % USIZE, true⟩), .Awk)
    | .Stop =>
      let inner' := mapUpdate inner req.reader
        (fun e => { e with count := (e.count + (USIZE - 1)) % USIZE })
      match mapLookup inner' req.reader with
      | some e' =>
        if e'.count = 0 then
          (mapUpdate inner' req.reader (fun e => { e with running := false }),
           .Awk)
        else (inner', .Awk)
      | none => (inner', .Awk)
    | .Get => (inner, .Frame getRes)

/-- Serial dispatch of a sequence of `Start`/`Stop`/`Get` requests naming
the single reader `r`, as performed by the export server's single-threaded
request loop. -/
def serveSeq (inner : ExportMap) (r : String)
    (reqs : List EyeRequestType) : ExportMap :=
  reqs.foldl (fun m t => (handleRequest m (.ok ()) ⟨r, t⟩).1) inner

/-- Number of `Start` requests in a sequence. -/
def startsIn (reqs : List EyeRequestType) : Nat :=
  reqs.countP (fun t => t = EyeRequestType.Start)

/-- Number of `Stop` requests in a sequence. -/
def stopsIn (reqs : List EyeRequestType) : Nat :=
  reqs.countP (fun t => t = EyeRequestType.Stop)

/-- A request sequence is balanced from counter `c` when no `Stop` is
dispatched while the counter is zero — i.e. every prefix has at least as
many `Stop`s covered by `c` plus its `Start`s. -/
def balancedFrom (c : Nat) : List EyeRequestType → Bool
  | [] => true
  | .Start :: rest => balancedFrom (c + 1) rest
  | .Stop :: rest => decide (0 < c) && balancedFrom (c - 1) rest
  | .Get :: rest => balancedFrom c rest

/-- `PORT` from `src/export.rs`. -/
def PORT : Nat := 9804

/-- The IPv4 address the export server binds in `EyeExportServer::run`
(`src/export.rs`): `Ipv4Addr::new(127, 0, 0, 1)`. -/
def listenIp : Nat × Nat × Nat × Nat := (127, 0, 0, 1)

/-- The socket `EyeExportServer::run` passes to `SocketServer::try_new`:
the address `listenIp` with port `PORT`. -/
def listenSocket : (Nat × Nat × Nat × Nat) × Nat := (listenIp, PORT)

/-- `CamConfig` from `src/cam/capture.rs`. -/
structure CamConfig where
  device : Nat
  meta : VideoMeta
deriving DecidableEq, Repr

/-- `VideoConfig` from `src/cam/video.rs`. -/
structure VideoConfig where
  path : String
  meta : VideoMeta
deriving DecidableEq, Repr

/-- `OneConfig` from `src/config.rs`: the per-reader configuration sum
type.  The source declares exactly two variants. -/
inductive OneConfig where
  | Cam (config : CamConfig)
  | Video (config : VideoConfig)
deriving DecidableEq, Repr

/-- The variant tags accepted by `OneConfig`'s derived `Deserialize`
implementation: serde's externally tagged enum encoding accepts exactly
the declared constructor names. -/
def OneConfig.acceptsTag (tag : String) : Bool :=
  tag = "Cam" || tag = "Video"

/-- The kind of reader `OneConfig::spawn` (`src/config.rs`) constructs. -/
inductive ReaderKind where
  | videoCapture
deriving DecidableEq, Repr

/-- `OneConfig::spawn` (`src/config.rs`): both branches box a
`VideoCapture::from_config` reader. -/
def OneConfig.spawn : OneConfig → ReaderKind
  | .Cam _ => .videoCapture
  | .Video _ => .videoCapture

/-- The index selection rule of the consumer pop, stated as in the spec:
pick `h - (N - 1)` (oldest surviving push) when the consumer lagged off
the ring, i.e. `h > c + (N - 1)`; otherwise pick `c`, the push that
immediately follows the last one the consumer saw. -/
def specPickIndex (N c h : Nat) : Nat :=
  if c + (N - 1) < h then h - (N - 1) else c

/-- A concrete metadata record for witness instances. -/
def sampleMeta : VideoMeta := ⟨none, none, 640, 480, 30⟩

/-- A concrete two-slot ring buffer for witness instances. -/
def sampleBuffer : List Slot :=
  [⟨⟨1, 1, 0, [9]⟩, 5⟩, ⟨⟨1, 1, 0, [8]⟩, 7⟩]

/-- A ring of capacity 2 that has seen three pushes. -/
def sampleQueue : QueueState := ⟨true, sampleBuffer, 3, 2, 2⟩

/-- The same ring after the first sample pop and one further push. -/
def sampleQueue1 : QueueState := ⟨true, sampleBuffer, 4, 3, 2⟩

/-- A fresh consumer frame (`count = 0`). -/
def sampleFrame0 : Frame := ⟨default, sampleMeta, 0, 0⟩

/-- The frame returned by popping `sampleQueue` at snapshot `3`. -/
def sampleFrame1 : Frame := ⟨⟨1, 1, 0, [9]⟩, sampleMeta, 5, 3⟩

/-- The frame returned by popping `sampleQueue1` at snapshot `4`, starting
from `sampleFrame1`. -/
def sampleFrame2 : Frame := ⟨⟨1, 1, 0, [8]⟩, sampleMeta, 7, 4⟩

/-- A concrete image whose buffer exactly fills a `2 × 3` matrix of
OpenCV type `16` (`CV_8UC3`, element size 3). -/
def sampleImage : Image := ⟨2, 3, 16, List.range 18⟩

/-! ## Helper lemmas -/

theorem mapLookup_mapUpdate_self (m : ExportMap) (k : String)
    (f : ExportEntry → ExportEntry) :
    mapLookup (mapUpdate m k f) k = (mapLookup m k).map f := by
  induction m with
  | nil => rfl
  | cons he rest ih =>
    obtain ⟨k', e⟩ := he
    by_cases h : k' = k <;> simp [mapLookup, mapUpdate, h, ih]

theorem serveSeq_cons (m : ExportMap) (r : String) (t : EyeRequestType)
    (reqs : List EyeRequestType) :
    serveSeq m r (t :: reqs) =
      serveSeq (handleRequest m (.ok ()) ⟨r, t⟩).1 r reqs := rfl

theorem startsIn_cons_start (reqs : List EyeRequestType) :
    startsIn (.Start :: reqs) = startsIn reqs + 1 := by
  simp [startsIn, List.countP_cons]

theorem startsIn_cons_stop (reqs : List EyeRequestType) :
    startsIn (.Stop :: reqs) = startsIn reqs := by
  simp [startsIn, List.countP_cons]

theorem stopsIn_cons_start (reqs : List EyeRequestType) :
    stopsIn (.Start :: reqs) = stopsIn reqs := by
  simp [stopsIn, List.countP_cons]

theorem stopsIn_cons_stop (reqs : List EyeRequestType) :
    stopsIn (.Stop :: reqs) = stopsIn reqs + 1 := by
  simp [stopsIn, List.countP_cons]

theorem pop_inner_count_gt (q : QueueState) (f f' : Frame)
    (q' : QueueState) (n : Nat)
    (h : Queue.pop_inner q f n = some (.ok (f', q'))) : f.count < f'.count := by
  by_cases ha : q.alive = false
  · simp [Queue.pop_inner, ha] at h
  · by_cases hn : f.count < n
    · simp [Queue.pop_inner, ha, hn] at h
      rw [← h.1]
      show f.count <
        (if f.count + (q.size - 1) < n then n - (q.size - 1) else f.count) + 1
      split <;> omega
    · simp [Queue.pop_inner, ha, hn] at h

/-- The refcount/running invariant of the export server's serial dispatch:
starting from a registry whose entry for `r` is `⟨c, decide (1 ≤ c)⟩`, a
balanced sequence of `Start`/`Stop` requests for `r` whose `Start`s keep
the counter below `USIZE` ends with the entry
`⟨c + starts - stops, decide (1 ≤ c + starts - stops)⟩`. -/
theorem serveSeq_refcount_inv (r : String) (reqs : List EyeRequestType) :
    ∀ (m : ExportMap) (c : Nat),
      (∀ t ∈ reqs, t = EyeRequestType.Start ∨ t = EyeRequestType.Stop) →
      mapLookup m r = some ⟨c, decide (1 ≤ c)⟩ →
      balancedFrom c reqs = true →
      c + startsIn reqs < USIZE →
      mapLookup (serveSeq m r reqs) r =
        some ⟨c + startsIn reqs - stopsIn reqs,
              decide (1 ≤ c + startsIn reqs - stopsIn reqs)⟩ := by
  induction reqs with
  | nil =>
    intro m c _ hm _ _
    simpa [serveSeq, startsIn, stopsIn] using hm
  | cons t rest ih =>
    intro m c hreq hm hbal hlen
    have hstep := serveSeq_cons m r t rest
    cases t with
    | Start =>
      have hlen' := hlen
      rw [startsIn_cons_start] at hlen'
      have hm' : mapLookup
          (mapUpdate m r fun e => ⟨(e.count + 1) % USIZE, true⟩) r
          = some ⟨c + 1, decide (1 ≤ c + 1)⟩ := by
        rw [mapLookup_mapUpdate_self, hm]
        have hc1 : (c + 1) % USIZE = c + 1 := Nat.mod_eq_of_lt (by omega)
        simp [hc1]
      have hhandle : (handleRequest m (.ok ()) ⟨r, .Start⟩).1
          = mapUpdate m r fun e => ⟨(e.count + 1) % USIZE, true⟩ := by
        simp [handleRequest, hm]
      have hres := ih (mapUpdate m r fun e => ⟨(e.count + 1) % USIZE, true⟩)
        (c + 1) (fun u hu => hreq u (List.mem_cons_of_mem _ hu)) hm'
        (by simpa [balancedFrom] using hbal) (by omega)
      rw [hstep, hhandle, hres]
      have hAB : c + 1 + startsIn rest - stopsIn rest
          = c + startsIn (.Start :: rest) - stopsIn (.Start :: rest) := by
        rw [startsIn_cons_start, stopsIn_cons_start]
        omega
      rw [hAB]
    | Stop =>
      have hlen' := hlen
      rw [startsIn_cons_stop] at hlen'
      have hbal' := hbal
      simp only [balancedFrom, Bool.and_eq_true, decide_eq_true_eq] at hbal'
      obtain ⟨hc, hbrest⟩ := hbal'
      have hupd : mapLookup (mapUpdate m r
            fun e => { e with count := (e.count + (USIZE - 1)) % USIZE }) r
          = some ⟨c - 1, decide (1 ≤ c)⟩ := by
        rw [mapLookup_mapUpdate_self, hm]
        have hU : (1 : Nat) ≤ USIZE := by norm_num [USIZE]
        have h1 : c + (USIZE - 1) = (c - 1) + USIZE := by omega
        have h2 : (c + (USIZE - 1)) % USIZE = c - 1 := by
          rw [h1, Nat.add_mod_right]
          exact Nat.mod_eq_of_lt (by omega)
        simp [h2]
      have hhandle : (handleRequest m (.ok ()) ⟨r, .Stop⟩).1
          = if c - 1 = 0
            then mapUpdate (mapUpdate m r
                fun e => { e with count := (e.count + (USIZE - 1)) % USIZE }) r
                (fun e => { e with running := false })
            else mapUpdate m r
                fun e => { e with count := (e.count + (USIZE - 1)) % USIZE } := by
        simp [handleRequest, hm, hupd]
        split <;> rfl
      by_cases hc1 : c - 1 = 0
      · have hm'' : mapLookup (mapUpdate (mapUpdate m r
              fun e => { e with count := (e.count + (USIZE - 1)) % USIZE }) r
              (fun e => { e with running := false })) r
            = some ⟨c - 1, decide (1 ≤ c - 1)⟩ := by
          rw [mapLookup_mapUpdate_self, hupd]
          simp [hc1]
        have hres := ih _ (c - 1)
          (fun u hu => hreq u (List.mem_cons_of_mem _ hu)) hm'' hbrest
          (by omega)
        rw [hstep, hhandle, if_pos hc1, hres]
        have hAB : c - 1 + startsIn rest - stopsIn rest
            = c + startsIn (.Stop :: rest) - stopsIn (.Stop :: rest) := by
          rw [startsIn_cons_stop, stopsIn_cons_stop]
          omega
        rw [hAB]
      · have hm'' : mapLookup (mapUpdate m r
              fun e => { e with count := (e.count + (USIZE - 1)) % USIZE }) r
            = some ⟨c - 1, decide (1 ≤ c - 1)⟩ := by
          rw [hupd]
          have ht1 : decide (1 ≤ c) = true := by simp; omega
          have ht2 : decide (1 ≤ c - 1) = true := by simp; omega
          rw [ht1, ht2]
        have hres := ih _ (c - 1)
          (fun u hu => hreq u (List.mem_cons_of_mem _ hu)) hm'' hbrest
          (by omega)
        rw [hstep, hhandle, if_neg hc1, hres]
        have hAB : c - 1 + startsIn rest - stopsIn rest
            = c + startsIn (.Stop :: rest) - stopsIn (.Stop :: rest) := by
          rw [startsIn_cons_stop, stopsIn_cons_stop]
          omega
        rw [hAB]
    | Get =>
      exact absurd (hreq .Get (List.mem_cons_self _ _)) (by simp)

/-! ## Claim theorems -/

/-- C1: for every consumer pop on a ring of capacity `N` holding last-seen
count `c`, once the producer counter `h` satisfies `h > c`, the pop selects
push index `i = h - (N - 1)` when `h > c + (N - 1)` and `i = c` otherwise,
and returns a frame whose count equals `i + 1` and whose timestamp (and
image) come from the slot at `i mod N`.  The hypotheses are the exit
conditions of the pick loop plus the in-bounds condition under which the
source's `buffer.get(..).unwrap()` does not panic. -/
theorem queue_pop_selects_latest_or_next (q : QueueState) (frame : Frame)
    (countNow : Nat) (halive : q.alive = true)
    (hnext : frame.count < countNow)
    (hslot : specPickIndex q.size frame.count countNow % q.size
      < q.buffer.length) :
    Queue.pop_inner q frame countNow =
      some (Except.ok
        ({ frame with
            image := (q.buffer.getD
              (specPickIndex q.size frame.count countNow % q.size)
              default).image,
            timestamp := (q.buffer.getD
              (specPickIndex q.size frame.count countNow % q.size)
              default).timestamp,
            count := specPickIndex q.size frame.count countNow + 1 },
         { q with ptrNextConsumed :=
            specPickIndex q.size frame.count countNow + 1 })) := by
  simp [Queue.pop_inner, halive, hnext, specPickIndex]

/-- Witness for C1: a concrete lagged pop on a capacity-2 ring that has
seen three pushes picks index `2`, reads slot `0` and returns count `3`. -/
theorem queue_pop_selects_latest_or_next_witness :
    Queue.pop_inner sampleQueue sampleFrame0 3 =
      some (Except.ok (sampleFrame1, ⟨true, sampleBuffer, 3, 3, 2⟩)) := by
  have h := queue_pop_selects_latest_or_next sampleQueue sampleFrame0 3 rfl
    (by decide) (by decide)
  exact h.trans (by decide)

/-- C3: for a single consumer, two consecutive successful pops through the
same frame slot return strictly increasing counts: the count written by
the second pop is strictly greater than the one it started from. -/
theorem queue_pop_counts_strictly_increase
    (q₁ q₂ q₁' q₂' : QueueState) (f₀ f₁ f₂ : Frame) (n₁ n₂ : Nat)
    (hpop₁ : Queue.pop_inner q₁ f₀ n₁ = some (.ok (f₁, q₁')))
    (hpop₂ : Queue.pop_inner q₂ f₁ n₂ = some (.ok (f₂, q₂'))) :
    f₁.count < f₂.count :=
  pop_inner_count_gt q₂ f₁ f₂ q₂' n₂ hpop₂

/-- Witness for C3: two concrete consecutive pops return counts 3 then 4. -/
theorem queue_pop_counts_strictly_increase_witness :
    sampleFrame1.count < sampleFrame2.count :=
  queue_pop_counts_strictly_increase sampleQueue sampleQueue1
    ⟨true, sampleBuffer, 3, 3, 2⟩ ⟨true, sampleBuffer, 4, 4, 2⟩
    sampleFrame0 sampleFrame1 sampleFrame2 3 4 (by decide) (by decide)

/-- Counterexample to C2 as stated: in the device producer, backpressure
(the spin gate of `VideoCaptureQueue::push_inner`, engaged when `sync` is
false, i.e. when `us_per_frame == 0`) is NOT enabled exactly when the
configured fps is 0: for `fps = 1_000_001` the integer truncation of
`1_000_000 / fps` is `0`, so `us_per_frame == 0` and backpressure is
enabled although `fps ≠ 0`. -/
theorem device_backpressure_not_iff_fps_zero :
    deviceBackpressure 1000001 = true ∧
      decide ((1000001 : Nat) = 0) = false := by
  decide

/-- C2 (amended): for every push, when backpressure is enabled the
producer writes only once the observed snapshot satisfies
`ptr < ptr_next_comsumed + (N - 1)` (spinning otherwise), and when
backpressure is disabled it writes immediately; in the device producer
backpressure is enabled exactly when `us_per_frame == 0`, which holds iff
`fps = 0` or `fps > 1_000_000`.  Conjuncts: the fps condition; the device
path `VideoCaptureQueue::push_inner` (immediate when `sync = true`, gated
when `sync = false`); the client path `Queue::push_inner_inplace`
(immediate when `sync = false`, gated when `sync = true` per the inverted
parameter polarity of `Queue::wait`). -/
theorem push_backpressure_gate (fps : Nat) (q : QueueState)
    (image : Image) (ts : Int) :
    (deviceBackpressure fps = true ↔ (fps = 0 ∨ 1000000 < fps))
    ∧ VideoCaptureQueue.push_inner q image ts true
        = some (writeSlot q image ts)
    ∧ (VideoCaptureQueue.push_inner q image ts false).isSome = waitGate q
    ∧ Queue.push_inner_inplace q image ts false
        = some (writeSlot q image ts)
    ∧ (Queue.push_inner_inplace q image ts true).isSome = waitGate q := by
  refine ⟨?_, rfl, ?_, rfl, ?_⟩
  · cases fps with
    | zero => simp [deviceBackpressure, deviceSync, usPerFrame]
    | succ n =>
      have hdiv : (1000000 / (n + 1) = 0) ↔ 1000000 < n + 1 :=
        Nat.div_eq_zero_iff (Nat.succ_pos n)
      simp only [deviceBackpressure, deviceSync, usPerFrame,
        Bool.not_eq_true', decide_eq_false_iff_not, Nat.not_lt, Nat.le_zero,
        hdiv]
      omega
  · cases hw : waitGate q <;> simp [VideoCaptureQueue.push_inner, hw]
  · cases hw : waitGate q <;> simp [Queue.push_inner_inplace, hw]

/-- Counterexample to C4 as stated: dispatching `[Stop, Start]` for a
registered reader starting from refcount 0 and a stopped reader leaves
the reader RUNNING although the net number of Starts minus Stops is 0:
the unchecked decrement wraps the counter to `2^64 - 1`, so the Stop
never reaches 0 and the final Start turns the reader on. -/
theorem export_refcount_underflow_restart :
    mapLookup (serveSeq [("main", ⟨0, false⟩)] "main"
        [EyeRequestType.Stop, EyeRequestType.Start]) "main"
      = some ⟨0, true⟩
    ∧ startsIn [EyeRequestType.Stop, EyeRequestType.Start]
      = stopsIn [EyeRequestType.Stop, EyeRequestType.Start] := by
  constructor
  · rfl
  · rfl

/-- C4 (amended): for every serial sequence of Start and Stop requests for
a registered exportable reader `r`, starting from refcount 0 and a stopped
reader, PROVIDED no prefix of the sequence has more Stops than Starts (so
the unchecked `usize` decrement never underflows) and the Starts stay
below `2^64`, the reader is running after the sequence iff the net number
of Starts minus Stops is ≥ 1. -/
theorem export_refcount_balanced (r : String) (reqs : List EyeRequestType)
    (inner0 : ExportMap)
    (hreq : ∀ t ∈ reqs, t = EyeRequestType.Start ∨ t = EyeRequestType.Stop)
    (h0 : mapLookup inner0 r = some ⟨0, false⟩)
    (hbal : balancedFrom 0 reqs = true)
    (hlen : startsIn reqs < USIZE) :
    ∃ e, mapLookup (serveSeq inner0 r reqs) r = some e ∧
      (e.running = true ↔ stopsIn reqs + 1 ≤ startsIn reqs) := by
  have h := serveSeq_refcount_inv r reqs inner0 0 hreq (by simpa using h0)
    hbal (by simpa using hlen)
  refine ⟨_, h, ?_⟩
  show decide (1 ≤ 0 + startsIn reqs - stopsIn reqs) = true
    ↔ stopsIn reqs + 1 ≤ startsIn reqs
  simp only [decide_eq_true_eq]
  omega

/-- Witness for C4 (amended): the balanced sequence `[Start, Stop, Start]`
leaves the reader running, with net 1. -/
theorem export_refcount_balanced_witness :
    ∃ e, mapLookup (serveSeq [("main", ⟨0, false⟩)] "main"
        [EyeRequestType.Start, EyeRequestType.Stop, EyeRequestType.Start])
        "main" = some e ∧
      (e.running = true ↔
        stopsIn [EyeRequestType.Start, EyeRequestType.Stop,
          EyeRequestType.Start] + 1
        ≤ startsIn [EyeRequestType.Start, EyeRequestType.Stop,
          EyeRequestType.Start]) :=
  export_refcount_balanced "main" _ _ (by decide) rfl (by decide) (by decide)

/-- C5: evaluation of the code at the failing input.  A Stop request for a
registered reader whose refcount is already 0 performs the unchecked
`*count -= 1`: under release (wrapping) semantics the counter becomes
`2^64 - 1` — it is neither clamped to 0 nor answered with a protocol
error (the response is `Awk`) — and under debug overflow checks the same
subtraction panics.  This contradicts the claim (and spec §4.G), which
requires clamping or a protocol error and no abort. -/
theorem export_stop_underflow_wraps :
    handleRequest [("main", ⟨0, false⟩)] (.ok ()) ⟨"main", .Stop⟩
      = ([("main", ⟨USIZE - 1, false⟩)], .Awk) := rfl

/-- Counterexample to C6 as stated: when the reader is not running and the
producer exited cleanly (`stop()` returns Ok), `VideoCapture::get` fails
with `RuntimeError::unreachable()` — the Internal unreachable-branch
error — and NOT with NotRunning as the claim says. -/
theorem capture_get_clean_stop_gives_unreachable :
    VideoCapture.get false (.ok ()) (.ok ())
        = .error RuntimeError.unreachableErr
    ∧ decide (RuntimeError.unreachableErr = RuntimeError.notRunning)
        = false := by
  decide

/-- C6 (amended): for every reader, when `get` is called while the reader
is not running, `get` calls `stop()` and fails with the producer's
captured error if there is one; if `stop()` succeeds (producer exited
cleanly), the device reader fails with the internal unreachable-branch
error and the client reader's branch is the `unreachable!()` panic
(embedded as `none`); it never succeeds in that state (the four equations
cover every possible `stop()` outcome). -/
theorem capture_get_not_running_fails (e : RuntimeError)
    (popRes : Except RuntimeError Unit) :
    VideoCapture.get false (.error e) popRes = .error e
    ∧ VideoCapture.get false (.ok ()) popRes
        = .error RuntimeError.unreachableErr
    ∧ ClientCapture.get false (.error e) popRes = some (.error e)
    ∧ ClientCapture.get false (.ok ()) popRes = none :=
  ⟨rfl, rfl, rfl, rfl⟩

/-- Counterexample to C7 as stated: the address the export server binds is
not the wildcard address 0.0.0.0. -/
theorem export_listen_not_wildcard :
    decide (listenIp = (0, 0, 0, 0)) = false := by
  decide

/-- C7 (amended): whenever the export server is started, it listens for
TCP connections on the loopback address 127.0.0.1 at port 9804. -/
theorem export_listen_loopback :
    listenSocket = ((127, 0, 0, 1), 9804) := rfl

/-- C8: for every Image whose byte buffer exactly fills its
`rows × cols` matrix of its type (the valid-matrix hypothesis),
deserializing the serialization yields an image whose rows, cols and typ
equal the original's and whose pixel data bytes equal the original's
byte-for-byte — i.e. the round trip is the identity. -/
theorem image_serde_round_trip (I : Image)
    (hvalid : I.data.length = I.rows * I.cols * elemSize I.typ) :
    Image.deserialize (Image.serialize I) = I := by
  cases I with
  | mk rows cols typ data =>
    have hv : data.length = rows * cols * elemSize typ := hvalid
    show Image.mk rows cols typ (data.take (rows * cols * elemSize typ))
      = Image.mk rows cols typ data
    rw [← hv, List.take_length]

/-- Witness for C8: the round trip is the identity on a concrete
`2 × 3` three-channel 8-bit image. -/
theorem image_serde_round_trip_witness :
    Image.deserialize (Image.serialize sampleImage) = sampleImage :=
  image_serde_round_trip sampleImage rfl

/-- Counterexample to C9 as stated: the configuration sum type accepts
neither an `Rtsp` nor a `Client` variant tag — `OneConfig` declares only
`Cam` and `Video`. -/
theorem one_config_rejects_rtsp_and_client :
    OneConfig.acceptsTag "Rtsp" = false
    ∧ OneConfig.acceptsTag "Client" = false := by
  decide

/-- C9 (amended): the host entry point's configuration type accepts
exactly two reader kinds: the outer map's values deserialize into
`OneConfig` with variants `Cam` and `Video` only, and the factory
constructs a `VideoCapture` reader for each of the two branches. -/
theorem one_config_exactly_cam_video (t : String) (c : OneConfig) :
    (OneConfig.acceptsTag t = true ↔ (t = "Cam" ∨ t = "Video"))
    ∧ OneConfig.spawn c = ReaderKind.videoCapture := by
  constructor
  · simp [OneConfig.acceptsTag]
  · cases c <;> rfl

/-- C10: when the export server receives any request naming a reader
absent from its registered map, it responds `NoSuchReader` and leaves the
whole registry state (every reference count and every running flag)
unchanged. -/
theorem export_no_such_reader_leaves_state (inner : ExportMap)
    (getRes : Except String Unit) (req : EyeRequest)
    (habs : mapLookup inner req.reader = none) :
    handleRequest inner getRes req = (inner, .NoSuchReader req.reader) := by
  simp [handleRequest, habs]

/-- Witness for C10: a Start request for an unknown reader name leaves a
concrete one-reader registry untouched. -/
theorem export_no_such_reader_leaves_state_witness :
    handleRequest [("cam0", ⟨1, true⟩)] (.ok ()) ⟨"nope", .Start⟩
      = ([("cam0", ⟨1, true⟩)], .NoSuchReader "nope") :=
  export_no_such_reader_leaves_state _ _ _ (by decide)

end Eye
